import Mathlib

/-!
Shallow embedding of `torchtune/modules/peft/lora.py` (`LoRALinear`) and
verification of its specification claims.

Modelling conventions:
- floating-point scalars are modelled as rationals (`ℚ`), so all arithmetic
  identities are exact;
- `torch.nn.Linear` is modelled by `NNLinear`: a weight matrix of shape
  `(out_features, in_features)` and an optional bias vector;
- `torch.nn.Dropout` randomness is made explicit: the Bernoulli mask drawn by
  the engine is a parameter (`mask`), together with the module's training flag;
  in evaluation mode (`training = false`) dropout is the identity;
- the random draws produced by the engine's initializers
  (`nn.Linear` default init, `nn.init.kaiming_uniform_`) are parameters of the
  construction functions; distribution support facts (e.g. the Kaiming-uniform
  bound) appear as hypotheses on those draws.
-/

namespace Torchtune

/-- Model of `torch.nn.Linear in_features out_features`: weight of shape
`(outF, inF)`, optional bias of shape `(outF)`. -/
structure NNLinear (inF outF : ℕ) where
  weight : Fin outF → Fin inF → ℚ
  bias : Option (Fin outF → ℚ)

/-- `nn.Linear.__call__`: `x @ W^T + b`, the bias term omitted when absent. -/
def NNLinear.apply {inF outF : ℕ} (f : NNLinear inF outF) (x : Fin inF → ℚ) :
    Fin outF → ℚ :=
  fun j => (∑ k, f.weight j k * x k) +
    (match f.bias with
     | some b => b j
     | none => 0)

/-- `nn.Dropout(p)` applied to a vector. The engine draws a Bernoulli mask;
in training mode masked entries are zeroed and survivors rescaled by
`1/(1-p)`; in evaluation mode dropout is the identity. -/
def dropoutApply {d : ℕ} (p : ℚ) (training : Bool) (mask : Fin d → Bool)
    (x : Fin d → ℚ) : Fin d → ℚ :=
  if training then
    (fun k => if mask k then 0 else x k / (1 - p))
  else x

/-- Model of the `LoRALinear` module state: the attributes set in
`LoRALinear.__init__` (`self.rank`, `self.alpha`, `self.out_dim`,
`self.linear`, `self.dropout`, `self.lora_a`, `self.lora_b`). -/
structure LoRALinear (inDim outDim : ℕ) where
  rank : ℕ
  alpha : ℚ
  out_dim : ℕ
  linear : NNLinear inDim outDim
  dropout_p : ℚ
  lora_a : NNLinear inDim rank
  lora_b : NNLinear rank outDim

/-- `LoRALinear.reset_lora_parameters`: zero `lora_b.weight`, overwrite
`lora_a.weight` with a fresh `kaiming_uniform_` draw `aDraw` supplied by the
engine. Nothing else is touched. -/
def LoRALinear.reset_lora_parameters {inDim outDim : ℕ}
    (l : LoRALinear inDim outDim) (aDraw : Fin l.rank → Fin inDim → ℚ) :
    LoRALinear inDim outDim :=
  { l with
    lora_b := { l.lora_b with weight := fun _ _ => 0 }
    lora_a := { l.lora_a with weight := aDraw } }

/-- `LoRALinear.__init__`: assemble the three `nn.Linear` submodules from the
engine's default-initialization draws (`linW`, `linB`, `laW`, `laB`, `lbW`,
`lbB`), record the configuration, then call `reset_lora_parameters` with the
`kaiming_uniform_` draw `aDraw`. Bias vectors are present exactly when the
corresponding flag is set. -/
def LoRALinear.init (inDim outDim rank : ℕ) (alpha dropout : ℚ)
    (use_bias use_bias_in_lora_matrices : Bool)
    (linW : Fin outDim → Fin inDim → ℚ) (linB : Fin outDim → ℚ)
    (laW : Fin rank → Fin inDim → ℚ) (laB : Fin rank → ℚ)
    (lbW : Fin outDim → Fin rank → ℚ) (lbB : Fin outDim → ℚ)
    (aDraw : Fin rank → Fin inDim → ℚ) : LoRALinear inDim outDim :=
  LoRALinear.reset_lora_parameters
    { rank := rank
      alpha := alpha
      out_dim := outDim
      linear := { weight := linW, bias := if use_bias then some linB else none }
      dropout_p := dropout
      lora_a := { weight := laW
                  bias := if use_bias_in_lora_matrices then some laB else none }
      lora_b := { weight := lbW
                  bias := if use_bias_in_lora_matrices then some lbB else none } }
    aDraw

/-- `LoRALinear.forward` on a single vector `x` of shape `(in_dim,)`:
`out = linear(x)`; `lora_out = lora_a(dropout(x))`;
`lora_out = (alpha / rank) * lora_b(lora_out)`; return `out + lora_out`. -/
def LoRALinear.forward {inDim outDim : ℕ} (l : LoRALinear inDim outDim)
    (training : Bool) (mask : Fin inDim → Bool) (x : Fin inDim → ℚ) :
    Fin outDim → ℚ :=
  let out := l.linear.apply x
  let lora_out := l.lora_a.apply (dropoutApply l.dropout_p training mask x)
  let lora_out2 := fun j => (l.alpha / (l.rank : ℚ)) * l.lora_b.apply lora_out j
  fun j => out j + lora_out2 j

/-- `LoRALinear.forward` with the module state threaded explicitly: the body of
`forward` contains no assignment to `self`, so the post-call state is the
pre-call state. -/
def LoRALinear.forwardStep {inDim outDim : ℕ} (l : LoRALinear inDim outDim)
    (training : Bool) (mask : Fin inDim → Bool) (x : Fin inDim → ℚ) :
    LoRALinear inDim outDim × (Fin outDim → ℚ) :=
  let out := l.linear.apply x
  let lora_out := l.lora_a.apply (dropoutApply l.dropout_p training mask x)
  let lora_out2 := fun j => (l.alpha / (l.rank : ℚ)) * l.lora_b.apply lora_out j
  (l, fun j => out j + lora_out2 j)

/-- The fused affine map described by the refinement claim:
`x ↦ x @ (W_base + (alpha/rank) · (W_B @ W_A))^T + b_base`, the base bias
omitted when disabled. Stated from the claim's words, to be compared against
`LoRALinear.forward` as translated from the source. -/
def LoRALinear.fusedForward {inDim outDim : ℕ} (l : LoRALinear inDim outDim)
    (x : Fin inDim → ℚ) : Fin outDim → ℚ :=
  fun j =>
    (∑ k, (l.linear.weight j k +
        (l.alpha / (l.rank : ℚ)) * ∑ t, l.lora_b.weight j t * l.lora_a.weight t k) * x k) +
      (match l.linear.bias with
       | some b => b j
       | none => 0)

/-! ## Batched tensors and engine-level error behaviour

`torch.Tensor` is modelled flatly: a shape (list of dimension sizes, the
trailing entry being the feature dimension) and row-major flat data.
`nn.Linear` (and hence `LoRALinear.forward`) acts on the trailing dimension
only, preserving all leading dimensions. Engine-side failures (shape
mismatch in matmul, invalid constructor arguments) are modelled with
`Except String`. -/

/-- Flat model of a `torch.Tensor`: shape and row-major data. -/
structure Tensor where
  shape : List ℕ
  data : List ℚ

/-- Read a flat row as a vector of length `d` (rows of a well-formed tensor
have exactly `d` entries). -/
def rowToVec (d : ℕ) (row : List ℚ) : Fin d → ℚ :=
  fun k => row.getD k 0

/-- Flatten a vector of length `d` back into a row. -/
def vecToList (d : ℕ) (v : Fin d → ℚ) : List ℚ :=
  (List.finRange d).map v

/-- Split flat data into `n` consecutive rows of length `k`. -/
def splitRows : ℕ → ℕ → List ℚ → List (List ℚ)
  | 0, _, _ => []
  | n + 1, k, l => l.take k :: splitRows n k (l.drop k)

/-- Modelled from the spec: the engine-side validation performed when
`nn.Linear(in_features, out_features)` is constructed (the engine rejects
negative dimensions; this code is in the external numeric engine, not in this
repository). -/
def engineLinearCheck (inF outF : ℤ) : Except String Unit :=
  if 0 ≤ inF ∧ 0 ≤ outF then Except.ok ()
  else Except.error "engine: trying to create tensor with negative dimension"

/-- Modelled from the spec: the engine-side validation performed when
`nn.Dropout(p)` is constructed (the engine rejects probabilities outside
`[0, 1]`; this code is in the external numeric engine, not in this
repository). -/
def engineDropoutCheck (p : ℚ) : Except String Unit :=
  if 0 ≤ p ∧ p ≤ 1 then Except.ok ()
  else Except.error "engine: dropout probability has to be between 0 and 1"

/-- `LoRALinear.__init__` with engine-side failure made explicit, following
the source order: construct `self.linear`, `self.dropout`, `self.lora_a`,
`self.lora_b` (each delegating validation to the engine), then call
`reset_lora_parameters`. The layer's own code performs no validation. -/
def LoRALinear.initE (inDim outDim rank : ℤ) (alpha dropout : ℚ)
    (use_bias use_bias_in_lora_matrices : Bool)
    (linW : ℕ → ℕ → ℚ) (linB : ℕ → ℚ) (laW : ℕ → ℕ → ℚ) (laB : ℕ → ℚ)
    (lbW : ℕ → ℕ → ℚ) (lbB : ℕ → ℚ) (aDraw : ℕ → ℕ → ℚ) :
    Except String (LoRALinear inDim.toNat outDim.toNat) := do
  engineLinearCheck inDim outDim
  engineDropoutCheck dropout
  engineLinearCheck inDim rank
  engineLinearCheck rank outDim
  Except.ok (LoRALinear.init inDim.toNat outDim.toNat rank.toNat alpha dropout
    use_bias use_bias_in_lora_matrices
    (fun j k => linW j.val k.val) (fun j => linB j.val)
    (fun j k => laW j.val k.val) (fun j => laB j.val)
    (fun j k => lbW j.val k.val) (fun j => lbB j.val)
    (fun j k => aDraw j.val k.val))

/-- `LoRALinear.initE` with the monadic error propagation written out. -/
theorem LoRALinear.initE_def (inDim outDim rank : ℤ) (alpha dropout : ℚ)
    (use_bias use_bias_in_lora_matrices : Bool)
    (linW : ℕ → ℕ → ℚ) (linB : ℕ → ℚ) (laW : ℕ → ℕ → ℚ) (laB : ℕ → ℚ)
    (lbW : ℕ → ℕ → ℚ) (lbB : ℕ → ℚ) (aDraw : ℕ → ℕ → ℚ) :
    LoRALinear.initE inDim outDim rank alpha dropout use_bias
        use_bias_in_lora_matrices linW linB laW laB lbW lbB aDraw =
      (match engineLinearCheck inDim outDim with
       | Except.error e => Except.error e
       | Except.ok _ =>
        match engineDropoutCheck dropout with
        | Except.error e => Except.error e
        | Except.ok _ =>
          match engineLinearCheck inDim rank with
          | Except.error e => Except.error e
          | Except.ok _ =>
            match engineLinearCheck rank outDim with
            | Except.error e => Except.error e
            | Except.ok _ =>
              Except.ok (LoRALinear.init inDim.toNat outDim.toNat rank.toNat
                alpha dropout use_bias use_bias_in_lora_matrices
                (fun j k => linW j.val k.val) (fun j => linB j.val)
                (fun j k => laW j.val k.val) (fun j => laB j.val)
                (fun j k => lbW j.val k.val) (fun j => lbB j.val)
                (fun j k => aDraw j.val k.val))) := by
  cases h1 : engineLinearCheck inDim outDim <;>
    cases h2 : engineDropoutCheck dropout <;>
      cases h3 : engineLinearCheck inDim rank <;>
        cases h4 : engineLinearCheck rank outDim <;>
          simp [LoRALinear.initE, h1, h2, h3, h4, Bind.bind, Except.bind]

/-- `LoRALinear.forward` on a batched tensor, with failure made explicit and
in source order: the first engine matmul (`self.linear(x)`) raises when the
trailing dimension differs from `in_dim`; otherwise, the scalar expression
`self.alpha / self.rank` raises Python's `ZeroDivisionError` when
`self.rank = 0`; otherwise `forward` is applied row-wise over the leading
dimensions. -/
def LoRALinear.forwardTensorE {inDim outDim : ℕ} (l : LoRALinear inDim outDim)
    (training : Bool) (mask : Fin inDim → Bool) (t : Tensor) :
    Except String Tensor :=
  if t.shape.getLast? = some inDim then
    if l.rank = 0 then
      Except.error "ZeroDivisionError: float division by zero"
    else
      Except.ok
        { shape := t.shape.dropLast ++ [outDim]
          data := ((splitRows t.shape.dropLast.prod inDim t.data).map
            (fun r => vecToList outDim
              (l.forward training mask (rowToVec inDim r)))).flatten }
  else Except.error "engine: mat1 and mat2 shapes cannot be multiplied"

/-- `Except.ok`-ness as a boolean. -/
def exceptOk {α : Type} (e : Except String α) : Bool :=
  match e with
  | Except.ok _ => true
  | Except.error _ => false

theorem splitRows_length (n k : ℕ) (l : List ℚ) :
    (splitRows n k l).length = n := by
  induction n generalizing l with
  | zero => rfl
  | succ n ih => simp [splitRows, ih]

theorem rows_flatten_length (d : ℕ) (f : List ℚ → Fin d → ℚ)
    (rs : List (List ℚ)) :
    ((rs.map (fun r => vecToList d (f r))).flatten).length = rs.length * d := by
  induction rs with
  | nil => simp
  | cons r rs ih =>
    simp only [List.map_cons, List.flatten_cons, List.length_append, ih,
      List.length_cons, Nat.succ_mul]
    simp only [vecToList, List.length_map, List.length_finRange]
    omega

/-! ## Concrete instances used by counterexamples and witnesses -/

/-- A freshly constructed layer with `use_bias_in_lora_matrices = true`
(`in_dim = out_dim = rank = 1`, `alpha = 1`, `dropout = 0`), whose engine
default-init draw for `lora_b`'s bias is `1/2` — a value inside the support
`[-1/√rank, 1/√rank] = [-1, 1]` of `nn.Linear`'s default bias init. -/
def layerWithLoraBias : LoRALinear 1 1 :=
  LoRALinear.init 1 1 1 1 0 false true
    (fun _ _ => 0) (fun _ => 0)
    (fun _ _ => 0) (fun _ => 0)
    (fun _ _ => 0) (fun _ => 1/2)
    (fun _ _ => 0)

/-- A small concrete layer with `rank = 1` and no biases. -/
def layerC3 : LoRALinear 1 1 where
  rank := 1
  alpha := 1
  out_dim := 1
  linear := { weight := fun _ _ => 0, bias := none }
  dropout_p := 0
  lora_a := { weight := fun _ _ => 0, bias := none }
  lora_b := { weight := fun _ _ => 1, bias := none }

/-- A concrete layer with `in_dim = 2`, `out_dim = 2`, `rank = 1`, all biases
absent, used to instantiate hypothesis-bearing theorems. -/
def layerNoBias : LoRALinear 2 2 where
  rank := 1
  alpha := 4
  out_dim := 2
  linear := { weight := fun _ _ => 1, bias := none }
  dropout_p := 0
  lora_a := { weight := fun _ _ => 2, bias := none }
  lora_b := { weight := fun _ _ => 3, bias := none }

/-- A concrete layer matching the spec's shape example:
`in_dim = 8`, `out_dim = 4`, `rank = 2`, `alpha = 1`. -/
def layerShapeExample : LoRALinear 8 4 where
  rank := 2
  alpha := 1
  out_dim := 4
  linear := { weight := fun _ _ => 0, bias := none }
  dropout_p := 0
  lora_a := { weight := fun _ _ => 0, bias := none }
  lora_b := { weight := fun _ _ => 0, bias := none }

/-- A concrete input tensor of shape `(3, 5, 8)`. -/
def tensorShapeExample : Tensor where
  shape := [3, 5, 8]
  data := List.replicate 120 0

/-- A concrete layer with `rank = 0`, exactly as produced by the constructor
when passed `rank = 0` (which the constructor accepts: it validates
nothing). -/
def layerRank0 : LoRALinear 1 1 where
  rank := 0
  alpha := 1
  out_dim := 1
  linear := { weight := fun _ _ => 0, bias := none }
  dropout_p := 0
  lora_a := { weight := fun _ _ => 0, bias := none }
  lora_b := { weight := fun _ _ => 0, bias := none }

/-- A shape-correct concrete input for `layerRank0`. -/
def tensorRank0 : Tensor where
  shape := [1]
  data := [0]

/-- A concrete layer with `in_dim = 2`, `out_dim = 1`, `rank = 1`. -/
def layerC8 : LoRALinear 2 1 where
  rank := 1
  alpha := 1
  out_dim := 1
  linear := { weight := fun _ _ => 0, bias := none }
  dropout_p := 0
  lora_a := { weight := fun _ _ => 0, bias := none }
  lora_b := { weight := fun _ _ => 0, bias := none }

/-- A concrete input tensor of shape `(2,)` for `layerC8`. -/
def tensorC8 : Tensor where
  shape := [2]
  data := [1, 1]

/-! ## Claim theorems -/

/-- C1: for every layer and every input `x` (trailing dimension `inDim` is
enforced by the type), `forward(x) - BaseMap(x)` equals
`(alpha / rank) * CorrectionB(CorrectionA(Dropout(x)))`, for any weight
configuration of the three affine maps and any bias flags (any `NNLinear`
contents, bias present or absent), in any dropout mode. -/
theorem C1_forward_additivity {inDim outDim : ℕ} (l : LoRALinear inDim outDim)
    (training : Bool) (mask : Fin inDim → Bool) (x : Fin inDim → ℚ)
    (j : Fin outDim) :
    l.forward training mask x j - l.linear.apply x j =
      (l.alpha / (l.rank : ℚ)) *
        l.lora_b.apply (l.lora_a.apply (dropoutApply l.dropout_p training mask x)) j := by
  simp [LoRALinear.forward]

/-- C5: holding all weights fixed and with dropout the identity (evaluation
mode, i.e. zero dropout), doubling `alpha` exactly doubles the correction
contribution `forward(x) - BaseMap(x)`. -/
theorem C5_alpha_linearity {inDim outDim : ℕ} (l : LoRALinear inDim outDim)
    (mask : Fin inDim → Bool) (x : Fin inDim → ℚ) (j : Fin outDim) :
    ({ l with alpha := 2 * l.alpha } : LoRALinear inDim outDim).forward false mask x j
        - l.linear.apply x j =
      2 * (l.forward false mask x j - l.linear.apply x j) := by
  simp [LoRALinear.forward]
  ring

/-- C6: in evaluation mode (`training = false`) `forward` does not depend on
the engine's dropout randomness: for any two Bernoulli masks the outputs are
identical, so two calls with the same input and weights agree exactly. -/
theorem C6_eval_deterministic {inDim outDim : ℕ} (l : LoRALinear inDim outDim)
    (mask₁ mask₂ : Fin inDim → Bool) (x : Fin inDim → ℚ) (j : Fin outDim) :
    l.forward false mask₁ x j = l.forward false mask₂ x j := by
  simp [LoRALinear.forward, dropoutApply]

/-- C7: `forward` never mutates the layer's state: threading the module state
through the call (`forwardStep`) returns it unchanged — in particular the base
map's weight and bias, both correction maps' weights and biases, and the
configuration fields `alpha`, `rank`, `out_dim` (hence the scaling factor
`alpha / rank`) are those of the pre-call state, and the returned value is
`forward`'s. -/
theorem C7_forward_no_mutation {inDim outDim : ℕ} (l : LoRALinear inDim outDim)
    (training : Bool) (mask : Fin inDim → Bool) (x : Fin inDim → ℚ) :
    (l.forwardStep training mask x).1 = l ∧
      (l.forwardStep training mask x).1.linear = l.linear ∧
      (l.forwardStep training mask x).1.lora_a.bias = l.lora_a.bias ∧
      (l.forwardStep training mask x).1.lora_b.bias = l.lora_b.bias ∧
      (l.forwardStep training mask x).1.alpha = l.alpha ∧
      (l.forwardStep training mask x).1.rank = l.rank ∧
      (l.forwardStep training mask x).1.out_dim = l.out_dim ∧
      (l.forwardStep training mask x).1.alpha / ((l.forwardStep training mask x).1.rank : ℚ)
        = l.alpha / (l.rank : ℚ) ∧
      (l.forwardStep training mask x).2 = l.forward training mask x :=
  ⟨rfl, rfl, rfl, rfl, rfl, rfl, rfl, rfl, rfl⟩

/-- C10: `reset_lora_parameters` writes only the two correction maps' weight
matrices: the base map's weight and bias, correction A's bias, correction B's
bias, and the configuration fields are unchanged. -/
theorem C10_reset_frame {inDim outDim : ℕ} (l : LoRALinear inDim outDim)
    (aDraw : Fin l.rank → Fin inDim → ℚ) :
    (l.reset_lora_parameters aDraw).linear = l.linear ∧
      (l.reset_lora_parameters aDraw).lora_a.bias = l.lora_a.bias ∧
      (l.reset_lora_parameters aDraw).lora_b.bias = l.lora_b.bias ∧
      (l.reset_lora_parameters aDraw).alpha = l.alpha ∧
      (l.reset_lora_parameters aDraw).rank = l.rank ∧
      (l.reset_lora_parameters aDraw).out_dim = l.out_dim ∧
      (l.reset_lora_parameters aDraw).dropout_p = l.dropout_p :=
  ⟨rfl, rfl, rfl, rfl, rfl, rfl, rfl⟩

/-- C2 counterexample: with `use_bias_in_lora_matrices = true`, a freshly
constructed layer does not satisfy `forward(x) = BaseMap(x)`:
`reset_lora_parameters` zeroes only `lora_b`'s weight, not its bias, so the
correction term equals `(alpha/rank) * b_B ≠ 0` even though map B's weight is
all zero. Here `forward(0) = 1/2` while `BaseMap(0) = 0`. -/
theorem C2_counterexample :
    layerWithLoraBias.forward false (fun _ => false) (fun _ => 0) 0 ≠
      layerWithLoraBias.linear.apply (fun _ => 0) 0 := by
  simp [layerWithLoraBias, LoRALinear.init, LoRALinear.reset_lora_parameters,
    LoRALinear.forward, NNLinear.apply, dropoutApply, Fin.sum_univ_one]

/-- C2 amended: immediately after construction with
`use_bias_in_lora_matrices = false` (the other constructor arguments
arbitrary), `forward(x)` equals `BaseMap(x)` exactly for every input and
every dropout mode, because map B's weight is zero and map B has no bias. -/
theorem C2_zero_correction_at_init
    (inDim outDim rank : ℕ) (alpha dropout : ℚ) (use_bias : Bool)
    (linW : Fin outDim → Fin inDim → ℚ) (linB : Fin outDim → ℚ)
    (laW : Fin rank → Fin inDim → ℚ) (laB : Fin rank → ℚ)
    (lbW : Fin outDim → Fin rank → ℚ) (lbB : Fin outDim → ℚ)
    (aDraw : Fin rank → Fin inDim → ℚ)
    (training : Bool) (mask : Fin inDim → Bool) (x : Fin inDim → ℚ)
    (j : Fin outDim) :
    (LoRALinear.init inDim outDim rank alpha dropout use_bias false
        linW linB laW laB lbW lbB aDraw).forward training mask x j =
      (LoRALinear.init inDim outDim rank alpha dropout use_bias false
        linW linB laW laB lbW lbB aDraw).linear.apply x j := by
  simp [LoRALinear.init, LoRALinear.reset_lora_parameters, LoRALinear.forward,
    NNLinear.apply]

/-- C3: after `reset_lora_parameters`, every entry of map B's weight is
exactly `0`; and assuming the engine's `kaiming_uniform_` support guarantee —
every drawn value lies within `±√(6 / ((1+5) · in_dim))`, PyTorch's
Kaiming-uniform bound with leakiness `a = √5` and `fan_in = in_dim` — every
entry of map A's weight lies within `±√(1 / in_dim)`. -/
theorem C3_reset_bounds {inDim outDim : ℕ} (l : LoRALinear inDim outDim)
    (aDraw : Fin l.rank → Fin inDim → ℚ)
    (hdraw : ∀ j k, |((aDraw j k : ℚ) : ℝ)| ≤
      Real.sqrt (6 / ((1 + 5) * (inDim : ℝ)))) :
    (∀ j k, (l.reset_lora_parameters aDraw).lora_b.weight j k = 0) ∧
    (∀ j k, |(((l.reset_lora_parameters aDraw).lora_a.weight j k : ℚ) : ℝ)| ≤
      Real.sqrt (1 / (inDim : ℝ))) := by
  constructor
  · intro j k; rfl
  · intro j k
    have h6 : (6 : ℝ) / ((1 + 5) * (inDim : ℝ)) = 1 / (inDim : ℝ) := by
      rw [show ((1 : ℝ) + 5) = 6 by norm_num, div_mul_eq_div_div]
      norm_num
    have h := hdraw j k
    rw [h6] at h
    exact h

/-- C3 witness: the hypothesis and conclusion of `C3_reset_bounds` at the
concrete layer `layerC3` with the all-zero draw. -/
theorem C3_reset_bounds_witness :
    (∀ (_ : Fin layerC3.rank) (_ : Fin 1),
      |((0 : ℚ) : ℝ)| ≤ Real.sqrt (6 / ((1 + 5) * ((1 : ℕ) : ℝ)))) ∧
    (∀ j k, (layerC3.reset_lora_parameters (fun _ _ => 0)).lora_b.weight j k = 0) ∧
    (∀ j k, |(((layerC3.reset_lora_parameters (fun _ _ => 0)).lora_a.weight j k : ℚ) : ℝ)| ≤
      Real.sqrt (1 / ((1 : ℕ) : ℝ))) := by
  have h : ∀ (j : Fin layerC3.rank) (k : Fin 1),
      |((((fun (_ : Fin layerC3.rank) (_ : Fin 1) => (0 : ℚ)) j k) : ℚ) : ℝ)| ≤
        Real.sqrt (6 / ((1 + 5) * ((1 : ℕ) : ℝ))) := by
    intro j k
    simp only [Rat.cast_zero, abs_zero]
    exact Real.sqrt_nonneg _
  exact ⟨h, (C3_reset_bounds layerC3 (fun _ _ => 0) h).1,
    (C3_reset_bounds layerC3 (fun _ _ => 0) h).2⟩

/-- C9: with dropout acting as the identity (evaluation mode) and both
correction-map biases absent, `forward` coincides with the single fused
affine map `x ↦ x @ (W_base + (alpha/rank) · (W_B @ W_A))^T + b_base`. -/
theorem C9_fused_refinement {inDim outDim : ℕ} (l : LoRALinear inDim outDim)
    (ha : l.lora_a.bias = none) (hb : l.lora_b.bias = none)
    (mask : Fin inDim → Bool) (x : Fin inDim → ℚ) (j : Fin outDim) :
    l.forward false mask x j = l.fusedForward x j := by
  have key : (l.alpha / (l.rank : ℚ)) *
        ∑ t, l.lora_b.weight j t * ∑ k, l.lora_a.weight t k * x k
      = ∑ k, ((l.alpha / (l.rank : ℚ)) *
          ∑ t, l.lora_b.weight j t * l.lora_a.weight t k) * x k := by
    simp_rw [Finset.mul_sum, Finset.sum_mul]
    rw [Finset.sum_comm]
    exact Finset.sum_congr rfl fun k _ => Finset.sum_congr rfl fun t _ => by ring
  simp only [LoRALinear.forward, LoRALinear.fusedForward, NNLinear.apply,
    dropoutApply, ha, hb, add_zero, Bool.false_eq_true, if_false]
  simp_rw [add_mul, Finset.sum_add_distrib]
  rw [key]
  ring

/-- C9 witness: `C9_fused_refinement` at the concrete bias-free layer
`layerNoBias` with a concrete input. -/
theorem C9_fused_refinement_witness :
    layerNoBias.lora_a.bias = none ∧ layerNoBias.lora_b.bias = none ∧
    layerNoBias.forward false (fun _ => false) (fun _ => 1) 0 =
      layerNoBias.fusedForward (fun _ => 1) 0 :=
  ⟨rfl, rfl,
    C9_fused_refinement layerNoBias rfl rfl (fun _ => false) (fun _ => 1) 0⟩

/-- C4: for every layer (with `rank ≥ 1`, the data model's invariant) and
every input tensor whose trailing dimension is `in_dim`, `forward` succeeds
and returns a tensor whose leading dimensions are preserved unchanged and
whose trailing dimension is `out_dim`, with row-major data of the matching
length. -/
theorem C4_shape_contract {inDim outDim : ℕ} (l : LoRALinear inDim outDim)
    (training : Bool) (mask : Fin inDim → Bool) (t : Tensor)
    (hshape : t.shape.getLast? = some inDim)
    (_hdata : t.data.length = t.shape.prod)
    (hrank : l.rank ≠ 0) :
    ∃ u, l.forwardTensorE training mask t = Except.ok u ∧
      u.shape = t.shape.dropLast ++ [outDim] ∧
      u.data.length = u.shape.prod := by
  rw [LoRALinear.forwardTensorE, if_pos hshape, if_neg hrank]
  refine ⟨_, rfl, rfl, ?_⟩
  dsimp only
  rw [rows_flatten_length outDim
    (fun r => l.forward training mask (rowToVec inDim r)), splitRows_length]
  simp [List.prod_append]

/-- C4 witness: the hypotheses and conclusion of `C4_shape_contract` at the
spec's example — `in_dim = 8`, `out_dim = 4`, `rank = 2`, input of shape
`(3, 5, 8)`, output of shape `(3, 5, 4)`. -/
theorem C4_shape_contract_witness :
    tensorShapeExample.shape.getLast? = some 8 ∧
    tensorShapeExample.data.length = tensorShapeExample.shape.prod ∧
    layerShapeExample.rank ≠ 0 ∧
    ∃ u, layerShapeExample.forwardTensorE false (fun _ => false)
        tensorShapeExample = Except.ok u ∧
      u.shape = tensorShapeExample.shape.dropLast ++ [4] ∧
      u.data.length = u.shape.prod :=
  ⟨by decide, by decide, by decide,
    C4_shape_contract layerShapeExample false (fun _ => false)
      tensorShapeExample (by decide) (by decide) (by decide)⟩

/-- C8 counterexample: the constructor accepts `rank = 0` without complaint
(no validation), and then for a shape-correct input — on which every engine
primitive succeeds — `forward`'s own scalar expression `alpha / rank` raises
`ZeroDivisionError`, an error of this component's own rather than of an
engine primitive. -/
theorem C8_counterexample :
    exceptOk (LoRALinear.initE 1 1 0 1 0 false false
      (fun _ _ => 0) (fun _ => 0) (fun _ _ => 0) (fun _ => 0)
      (fun _ _ => 0) (fun _ => 0) (fun _ _ => 0)) = true ∧
    tensorRank0.shape.getLast? = some 1 ∧
    layerRank0.forwardTensorE false (fun _ => false) tensorRank0 =
      Except.error "ZeroDivisionError: float division by zero" := by
  refine ⟨?_, rfl, ?_⟩
  · rw [LoRALinear.initE_def]
    norm_num [engineLinearCheck, engineDropoutCheck, exceptOk]
  · rfl

/-- C8 amended: the constructor performs no validation of its own — its
outcome depends only on the engine-side checks (dimensions nonnegative,
dropout probability in `[0, 1]`), never on `alpha`, the bias flags, or any
stricter condition; and for every layer with `rank ≠ 0`, `forward` fails
exactly when the engine's matrix-multiply primitive rejects the trailing
dimension. (When `rank = 0`, `forward` additionally raises the component's
own `ZeroDivisionError`; see `C8_counterexample`.) -/
theorem C8_error_paths :
    (∀ (inDim outDim rank : ℤ) (alpha dropout : ℚ)
        (use_bias use_bias_in_lora_matrices : Bool)
        (linW : ℕ → ℕ → ℚ) (linB : ℕ → ℚ) (laW : ℕ → ℕ → ℚ) (laB : ℕ → ℚ)
        (lbW : ℕ → ℕ → ℚ) (lbB : ℕ → ℚ) (aDraw : ℕ → ℕ → ℚ),
      exceptOk (LoRALinear.initE inDim outDim rank alpha dropout use_bias
          use_bias_in_lora_matrices linW linB laW laB lbW lbB aDraw) = true ↔
        (0 ≤ inDim ∧ 0 ≤ outDim ∧ 0 ≤ rank ∧ 0 ≤ dropout ∧ dropout ≤ 1)) ∧
    (∀ (inDim outDim : ℕ) (l : LoRALinear inDim outDim), l.rank ≠ 0 →
      ∀ (training : Bool) (mask : Fin inDim → Bool) (t : Tensor),
        exceptOk (l.forwardTensorE training mask t) = true ↔
          t.shape.getLast? = some inDim) := by
  constructor
  · intro inDim outDim rank alpha dropout ub ubl linW linB laW laB lbW lbB aDraw
    rw [LoRALinear.initE_def]
    by_cases hi : 0 ≤ inDim <;> by_cases ho : 0 ≤ outDim <;>
      by_cases hr : 0 ≤ rank <;> by_cases hd1 : 0 ≤ dropout <;>
        by_cases hd2 : dropout ≤ 1 <;>
          simp [engineLinearCheck, engineDropoutCheck, exceptOk,
            hi, ho, hr, hd1, hd2]
  · intro inDim outDim l hrank training mask t
    by_cases hs : t.shape.getLast? = some inDim
    · simp [LoRALinear.forwardTensorE, hs, hrank, exceptOk]
    · simp [LoRALinear.forwardTensorE, hs, exceptOk]

/-- C8 witness: `C8_error_paths` instantiated at concrete inputs — the
constructor-outcome equivalence at concrete arguments, and the
forward-failure equivalence at `layerC8` (rank 1) with a shape-`(2,)`
tensor. -/
theorem C8_error_paths_witness :
    (exceptOk (LoRALinear.initE 2 1 1 1 0 false false
        (fun _ _ => 0) (fun _ => 0) (fun _ _ => 0) (fun _ => 0)
        (fun _ _ => 0) (fun _ => 0) (fun _ _ => 0)) = true ↔
      (0 ≤ (2 : ℤ) ∧ 0 ≤ (1 : ℤ) ∧ 0 ≤ (1 : ℤ) ∧
        0 ≤ (0 : ℚ) ∧ (0 : ℚ) ≤ 1)) ∧
    layerC8.rank ≠ 0 ∧
    (exceptOk (layerC8.forwardTensorE false (fun _ => false) tensorC8) = true ↔
      tensorC8.shape.getLast? = some 2) :=
  ⟨C8_error_paths.1 2 1 1 1 0 false false
      (fun _ _ => 0) (fun _ => 0) (fun _ _ => 0) (fun _ => 0)
      (fun _ _ => 0) (fun _ => 0) (fun _ _ => 0),
    by decide,
    C8_error_paths.2 2 1 layerC8 (by decide) false (fun _ => false) tensorC8⟩

end Torchtune
